import Mathlib

/-!
Shallow embedding of `src/glb_loader.py` (class `GLBLoader`) from the
solar-system-simulator repository, together with theorems settling the
frozen claims about its specification.

Conventions of the embedding:
* Python byte strings / decoded buffers are `List Nat` (byte values).
* numpy arrays are `NpArray`: the dtype, the underlying byte buffer, and
  an optional 2-D shape (`none` = the array was left 1-D).
* Python `list[a:b]` slicing (with clipping) is `pySlice`.
* Fallible decoding guarded by `try/except` is `Option`; uncaught Python
  exceptions (IndexError / TypeError / KeyError from raw indexing) are the
  error side of `Except PyError` / `PyResult`.
* The OpenGL name space is `GLState`: a fresh-name counter, the live
  handle sets per kind, and a log of every `glDelete*` call issued.
-/

/-- Python exception kinds that can escape the loader uncaught. -/
inductive PyError where
  | indexError
  | typeError
  | keyError
  deriving DecidableEq, Repr

/-- Result of a Python method that mutates `self`: on an uncaught
exception the caller still observes the mutations made before the raise,
so the error case carries the partial value as well. -/
inductive PyResult (α : Type) where
  | ok : α → PyResult α
  | err : PyError → α → PyResult α
  deriving DecidableEq, Repr

/-- numpy dtypes reachable from `GLBLoader._get_numpy_dtype`. -/
inductive NumpyDtype where
  | int8
  | uint8
  | int16
  | uint16
  | uint32
  | float32
  deriving DecidableEq, Repr

/-- `np.dtype(d).itemsize`. -/
def NumpyDtype.itemsize : NumpyDtype → Nat
  | .int8 => 1
  | .uint8 => 1
  | .int16 => 2
  | .uint16 => 2
  | .uint32 => 4
  | .float32 => 4

/-- A numpy array as the loader observes it: dtype, the bytes it views,
and `some (rows, cols)` exactly when the code reshaped it to 2-D. -/
structure NpArray where
  dtype : NumpyDtype
  bytes : List Nat
  shape2d : Option (Nat × Nat)
  deriving DecidableEq, Repr

/-- Number of elements in the underlying 1-D view (`len` of a 1-D array). -/
def NpArray.size (a : NpArray) : Nat := a.bytes.length / a.dtype.itemsize

/-- Python `len(array)`: first dimension after an eventual reshape. -/
def NpArray.len (a : NpArray) : Nat :=
  match a.shape2d with
  | some (r, _) => r
  | none => a.size

/-- Python slice `data[start:stop]` for `0 ≤ start ≤ stop` (clips at both
ends, never raises). -/
def pySlice (data : List α) (start stop : Nat) : List α :=
  (data.take stop).drop start

/-- `GLBLoader._get_numpy_dtype` (lines 290-301): the fixed code map,
falling back to `np.float32` for any unrecognized code. -/
def getNumpyDtype (componentType : Nat) : NumpyDtype :=
  if componentType = 5120 then .int8
  else if componentType = 5121 then .uint8
  else if componentType = 5122 then .int16
  else if componentType = 5123 then .uint16
  else if componentType = 5125 then .uint32
  else if componentType = 5126 then .float32
  else .float32

/-- The shape-string map of `_load_meshes` (lines 154-162), defaulting
to 3 for an unknown shape string. -/
def componentCountOf (shape : String) : Nat :=
  if shape = "SCALAR" then 1
  else if shape = "VEC2" then 2
  else if shape = "VEC3" then 3
  else if shape = "VEC4" then 4
  else if shape = "MAT2" then 4
  else if shape = "MAT3" then 9
  else if shape = "MAT4" then 16
  else 3

/-- glTF bufferView record as the loader reads it. -/
structure BufferView where
  buffer : Nat
  byteOffset : Option Nat
  byteLength : Nat
  deriving DecidableEq, Repr

/-- glTF accessor record as the loader reads it. -/
structure Accessor where
  bufferView : Nat
  byteOffset : Option Nat
  componentType : Nat
  accType : String
  count : Nat
  deriving DecidableEq, Repr

/-- `np.frombuffer(buf, dtype)`: raises `ValueError` (modelled as `none`)
when the buffer length is not a multiple of the item size, otherwise a
1-D view of the bytes. -/
def npFrombuffer (buf : List Nat) (dtype : NumpyDtype) : Option NpArray :=
  if buf.length % dtype.itemsize = 0 then some { dtype := dtype, bytes := buf, shape2d := none }
  else none

/-- Attribute decode of `_load_meshes` lines 153-175, given the resolved
accessor, bufferView and decoded buffer payload.  The slice is clipped by
Python; `np.frombuffer` may raise `ValueError` (→ `none`, the code does
`continue`); the reshape happens only when the element count matches, but
the resulting array is stored either way. -/
def decodeAttribute (acc : Accessor) (bv : BufferView) (data : List Nat) : Option NpArray :=
  let start := bv.byteOffset.getD 0 + acc.byteOffset.getD 0
  let component_count := componentCountOf acc.accType
  let dtype := getNumpyDtype acc.componentType
  let bytes_per_component := dtype.itemsize
  let total_bytes := acc.count * component_count * bytes_per_component
  let buffer_data := pySlice data start (start + total_bytes)
  match npFrombuffer buffer_data dtype with
  | none => none
  | some arr =>
      if arr.size = acc.count * component_count then
        some { arr with shape2d := some (acc.count, component_count) }
      else
        some arr

/-- Index decode of `_load_meshes` lines 183-191: like the attribute
decode but with no component count and no reshape. -/
def decodeIndices (acc : Accessor) (bv : BufferView) (data : List Nat) : Option NpArray :=
  let start := bv.byteOffset.getD 0 + acc.byteOffset.getD 0
  let dtype := getNumpyDtype acc.componentType
  let total_bytes := acc.count * dtype.itemsize
  npFrombuffer (pySlice data start (start + total_bytes)) dtype

/-- The byte window an accessor asks for (start offset plus total bytes),
as computed by `_load_meshes`. -/
def attrWindowStart (acc : Accessor) (bv : BufferView) : Nat :=
  bv.byteOffset.getD 0 + acc.byteOffset.getD 0

/-- Total bytes the attribute decode requests. -/
def attrTotalBytes (acc : Accessor) : Nat :=
  acc.count * componentCountOf acc.accType * (getNumpyDtype acc.componentType).itemsize

lemma NumpyDtype.itemsize_pos (d : NumpyDtype) : 0 < d.itemsize := by
  cases d <;> decide

lemma pySlice_length (data : List α) (start stop : Nat) :
    (pySlice data start stop).length = min stop data.length - start := by
  simp [pySlice]

example : getNumpyDtype 5121 = .uint8 := by decide
example : getNumpyDtype 9999 = .float32 := by decide
example : componentCountOf "MAT3" = 9 := by decide
example : decodeAttribute ⟨0, none, 5126, "VEC3", 1⟩ ⟨0, none, 12⟩
    [0,0,0,0, 0,0,0,0, 0,0,0,0] =
    some ⟨.float32, [0,0,0,0, 0,0,0,0, 0,0,0,0], some (1, 3)⟩ := by decide

/-- A decoded PIL image as the loader keeps it (only width/height are
observed downstream; pixel content is irrelevant to every claim). -/
structure PILImage where
  width : Nat
  height : Nat
  deriving DecidableEq, Repr

/-- glTF image entity (pygltflib `Image`): optional external URI,
optional bufferView reference, optional MIME type, optional explicit
dimensions (the raw-reinterpretation path looks for them). -/
structure ImageEntry where
  uri : Option String
  bufferView : Option Nat
  mimeType : Option String
  width : Option Nat
  height : Option Nat
  deriving DecidableEq, Repr

/-- glTF texture entity. -/
structure TexEntry where
  source : Option Nat
  name : Option String
  deriving DecidableEq, Repr

/-- glTF pbrMetallicRoughness record (factors as rationals; the claims
never inspect their numeric values). -/
structure Pbr where
  baseColorFactor : List Rat
  metallicFactor : Rat
  roughnessFactor : Rat
  deriving DecidableEq, Repr

/-- glTF material entity. -/
structure MaterialEntry where
  name : Option String
  pbrMetallicRoughness : Option Pbr
  deriving DecidableEq, Repr

/-- glTF mesh primitive: the integer-valued attribute slots discovered at
runtime (semantic name ↦ accessor index), the optional index accessor,
and the optional material index. -/
structure Primitive where
  attributes : List (String × Nat)
  indices : Option Nat
  material : Option Nat
  deriving DecidableEq, Repr

/-- glTF mesh entity. -/
structure GltfMesh where
  name : Option String
  primitives : List Primitive
  deriving DecidableEq, Repr

/-- The parsed container (`self.gltf`), with each buffer already decoded
to its byte payload (`get_data_from_buffer_uri`). -/
structure GLTF where
  buffers : List (List Nat)
  bufferViews : List BufferView
  accessors : List Accessor
  images : List ImageEntry
  textures : List TexEntry
  materials : List MaterialEntry
  meshes : List GltfMesh
  deriving DecidableEq, Repr

/-- External decode behaviour the loader delegates to PIL: opening an
external file by URI (after RGBA conversion), and decoding an embedded
byte string by content (`Image.open(io.BytesIO(...))`).  `none` means the
call raised inside a `try` block. -/
structure DecodeEnv where
  openExternal : String → Option PILImage
  openBytes : List Nat → Option PILImage

/-- One entry of `self.textures`: the dict built by `_load_textures`.
`image = none` models the dict lacking the `'image'` key. -/
structure TextureData where
  index : Option Nat
  name : String
  image : Option PILImage
  embedded : Option Bool
  deriving DecidableEq, Repr

/-- The guarded embedded decode of `_load_textures` lines 78-97 (the body
of the `try`): `image/png` and `image/jpeg` — and an absent MIME type —
go through `Image.open` on the sliced bytes; any other declared MIME type
takes the raw RGBA reinterpretation, which requires explicit
width/height (else the raised `ValueError` is caught) and a byte string
of exactly `width*height*4` bytes. -/
def decodeEmbedded (env : DecodeEnv) (image : ImageEntry) (image_data : List Nat) :
    Option PILImage :=
  match image.mimeType with
  | some mt =>
    if mt = "image/png" ∨ mt = "image/jpeg" then env.openBytes image_data
    else
      match image.width, image.height with
      | some w, some h => if image_data.length = w * h * 4 then some ⟨w, h⟩ else none
      | _, _ => none
  | none => env.openBytes image_data

/-- Outcome of one texture-loop iteration for the `self.textures` list. -/
inductive TexOutcome where
  | raise : PyError → TexOutcome
  | skip : TexOutcome
  | append : Option PILImage → Option Bool → TexOutcome
  deriving DecidableEq, Repr

/-- The embedded branch of `_load_textures` (lines 69-106): the
bufferView and buffer lookups happen OUTSIDE the `try` block, so a
dangling reference raises an uncaught exception; only the decode itself
is guarded (failure → `continue`). -/
def texEmbeddedBranch (env : DecodeEnv) (g : GLTF) (image : ImageEntry) : TexOutcome :=
  match image.bufferView with
  | none => .append none none
  | some bvIdx =>
    match g.bufferViews.get? bvIdx with
    | none => .raise .indexError
    | some bv =>
      match g.buffers.get? bv.buffer with
      | none => .raise .indexError
      | some data =>
        let start := bv.byteOffset.getD 0
        let image_data := pySlice data start (start + bv.byteLength)
        match decodeEmbedded env image image_data with
        | some img => .append (some img) (some true)
        | none => .skip

/-- One texture-loop iteration of `_load_textures` (lines 46-108): which
entry, if any, this texture contributes to `self.textures`.  A texture
whose `source` is `None` or out of range contributes nothing (the
`append` at line 108 sits inside the `source` guard). -/
def texOutcome (env : DecodeEnv) (g : GLTF) (t : TexEntry) : TexOutcome :=
  match t.source with
  | none => .skip
  | some s =>
    match g.images.get? s with
    | none => .skip
    | some image =>
      match image.uri with
      | some u =>
        if u = "" then texEmbeddedBranch env g image
        else
          match env.openExternal u with
          | some img => .append (some img) (some false)
          | none => .skip
      | none => texEmbeddedBranch env g image

/-- `_load_textures` over the texture list, carrying the `self.textures`
accumulator (`done`); on an uncaught exception the partial list is what
`self.textures` holds at the raise. -/
def loadTexturesAux (env : DecodeEnv) (g : GLTF) (done : List TextureData) :
    List TexEntry → PyResult (List TextureData)
  | [] => .ok done
  | t :: ts =>
    match texOutcome env g t with
    | .raise e => .err e done
    | .skip => loadTexturesAux env g done ts
    | .append img emb =>
        loadTexturesAux env g
          (done ++ [{ index := t.source, name := t.name.getD ("texture_" ++ toString done.length),
                      image := img, embedded := emb }]) ts

/-- `GLBLoader._load_textures` (lines 42-108). -/
def loadTextures (env : DecodeEnv) (g : GLTF) : PyResult (List TextureData) :=
  loadTexturesAux env g [] g.textures

/-- One entry of `self.materials` built by `_load_materials`. -/
structure MaterialData where
  name : String
  baseColorFactor : List Rat
  metallicFactor : Rat
  roughnessFactor : Rat
  deriving DecidableEq, Repr

/-- `GLBLoader._load_materials` (lines 110-122), with the accumulator for
the default-name index. -/
def loadMaterialsAux (done : List MaterialData) : List MaterialEntry → List MaterialData
  | [] => done
  | m :: ms =>
    let md : MaterialData :=
      match m.pbrMetallicRoughness with
      | some pbr =>
          { name := m.name.getD ("material_" ++ toString done.length),
            baseColorFactor := pbr.baseColorFactor,
            metallicFactor := pbr.metallicFactor,
            roughnessFactor := pbr.roughnessFactor }
      | none =>
          { name := m.name.getD ("material_" ++ toString done.length),
            baseColorFactor := [1, 1, 1, 1],
            metallicFactor := 1/2,
            roughnessFactor := 1/2 }
    loadMaterialsAux (done ++ [md]) ms

/-- `GLBLoader._load_materials`. -/
def loadMaterials (g : GLTF) : List MaterialData :=
  loadMaterialsAux [] g.materials

/-- One assembled primitive record (`primitive_data` of `_load_meshes`). -/
structure PrimitiveData where
  attributes : List (String × NpArray)
  indices : Option NpArray
  material : Option Nat
  deriving DecidableEq, Repr

/-- One entry of `self.meshes` (`mesh_data` of `_load_meshes`). -/
structure MeshData where
  name : String
  primitives : List PrimitiveData
  deriving DecidableEq, Repr

/-- Resolve and decode one attribute accessor (lines 146-167): the
accessor / bufferView / buffer lookups are raw list indexing and raise
uncaught on a dangling index; the guarded decode itself yields
`none` on `ValueError` (the loop does `continue`). -/
def decodeAttrFull (g : GLTF) (accIdx : Nat) : Except PyError (Option NpArray) :=
  match g.accessors.get? accIdx with
  | none => .error .indexError
  | some acc =>
    match g.bufferViews.get? acc.bufferView with
    | none => .error .indexError
    | some bv =>
      match g.buffers.get? bv.buffer with
      | none => .error .indexError
      | some data => .ok (decodeAttribute acc bv data)

/-- The attribute loop of `_load_meshes` (lines 145-175): each
successfully decoded array is stored under its semantic name; a
`ValueError` skips just that attribute. -/
def loadAttrs (g : GLTF) : List (String × Nat) → Except PyError (List (String × NpArray))
  | [] => .ok []
  | (name, idx) :: rest => do
    let r ← decodeAttrFull g idx
    let tail ← loadAttrs g rest
    match r with
    | none => .ok tail
    | some arr => .ok ((name, arr) :: tail)

/-- One primitive iteration of `_load_meshes` (lines 134-195).
`.ok none` means the `continue` at line 193 fired: the index decode
raised `ValueError` and the WHOLE primitive is dropped (the append at
line 195 is skipped).  `.ok (some pd)` means `pd` is appended to the
mesh's primitive list. -/
def loadPrimitive (g : GLTF) (p : Primitive) : Except PyError (Option PrimitiveData) := do
  let attrs ← loadAttrs g p.attributes
  match p.indices with
  | none => .ok (some { attributes := attrs, indices := none, material := p.material })
  | some idxAcc =>
    match g.accessors.get? idxAcc with
    | .none => .error .indexError
    | .some acc =>
      match g.bufferViews.get? acc.bufferView with
      | .none => .error .indexError
      | .some bv =>
        match g.buffers.get? bv.buffer with
        | .none => .error .indexError
        | .some data =>
          match decodeIndices acc bv data with
          | .none => .ok none
          | .some arr =>
              .ok (some { attributes := attrs, indices := some arr, material := p.material })

/-- The primitive loop of one mesh. -/
def loadPrims (g : GLTF) : List Primitive → Except PyError (List PrimitiveData)
  | [] => .ok []
  | p :: ps => do
    let r ← loadPrimitive g p
    let rest ← loadPrims g ps
    match r with
    | none => .ok rest
    | some pd => .ok (pd :: rest)

/-- `GLBLoader._load_meshes` (lines 124-197) over the mesh list; `done`
is the `self.meshes` accumulator (an uncaught exception inside a mesh
leaves the earlier, completed meshes in place). -/
def loadMeshesAux (g : GLTF) (done : List MeshData) : List GltfMesh → PyResult (List MeshData)
  | [] => .ok done
  | m :: ms =>
    match loadPrims g m.primitives with
    | .error e => .err e done
    | .ok prims =>
        loadMeshesAux g
          (done ++ [{ name := m.name.getD ("mesh_" ++ toString done.length),
                      primitives := prims }]) ms

/-- `GLBLoader._load_meshes`. -/
def loadMeshes (g : GLTF) : PyResult (List MeshData) :=
  loadMeshesAux g [] g.meshes

/-- The OpenGL name space visible to the loader: a fresh-name counter
(names start at 1), the sets of live handles per object kind, and a log
of every `glDelete*` call issued (each entry: the handle list passed). -/
structure GLState where
  nextId : Nat
  liveVaos : List Nat
  liveBuffers : List Nat
  liveTextures : List Nat
  deleteLog : List (List Nat)
  deriving DecidableEq, Repr

/-- A fresh GL context. -/
def initGL : GLState :=
  { nextId := 1, liveVaos := [], liveBuffers := [], liveTextures := [], deleteLog := [] }

/-- `glGenVertexArrays(1)`. -/
def glGenVertexArrayM (s : GLState) : Nat × GLState :=
  (s.nextId, { s with nextId := s.nextId + 1, liveVaos := s.liveVaos ++ [s.nextId] })

/-- `glGenBuffers(1)`. -/
def glGenBufferM (s : GLState) : Nat × GLState :=
  (s.nextId, { s with nextId := s.nextId + 1, liveBuffers := s.liveBuffers ++ [s.nextId] })

/-- `glGenTextures(1)`. -/
def glGenTextureM (s : GLState) : Nat × GLState :=
  (s.nextId, { s with nextId := s.nextId + 1, liveTextures := s.liveTextures ++ [s.nextId] })

/-- `glDeleteVertexArrays(len(hs), hs)`: the named objects stop being
live; the call itself is logged. -/
def glDeleteVertexArraysM (hs : List Nat) (s : GLState) : GLState :=
  { s with liveVaos := s.liveVaos.filter (fun h => ! hs.contains h),
           deleteLog := s.deleteLog ++ [hs] }

/-- `glDeleteBuffers(len(hs), hs)`. -/
def glDeleteBuffersM (hs : List Nat) (s : GLState) : GLState :=
  { s with liveBuffers := s.liveBuffers.filter (fun h => ! hs.contains h),
           deleteLog := s.deleteLog ++ [hs] }

/-- `glDeleteTextures(hs)`. -/
def glDeleteTexturesM (hs : List Nat) (s : GLState) : GLState :=
  { s with liveTextures := s.liveTextures.filter (fun h => ! hs.contains h),
           deleteLog := s.deleteLog ++ [hs] }

/-- The mutable handle lists of the loader during `_setup_opengl_buffers`
together with the GL context they allocate from. -/
structure UploadState where
  gl : GLState
  vaos : List Nat
  vbos : List Nat
  texture_ids : List Nat
  deriving DecidableEq, Repr

/-- Is the named attribute present on the assembled primitive
(`'NAME' in primitive['attributes']`)? -/
def hasAttr (pd : PrimitiveData) (name : String) : Bool :=
  (pd.attributes.lookup name).isSome

/-- One primitive iteration of `_setup_opengl_buffers` (lines 203-282):
one vertex array always; one buffer per present POSITION / NORMAL /
TEXCOORD_0 attribute and per present index array; then, if the MATERIAL
index is in range of `self.textures` and that texture carries an image,
one texture handle appended to `self.texture_ids`.  (In the model no GL
call fails, matching the claim setting of all uploads succeeding.) -/
def uploadPrimitive (textures : List TextureData) (pd : PrimitiveData) (u : UploadState) :
    UploadState :=
  let (vao, gl1) := glGenVertexArrayM u.gl
  let (gl2, vbos2) :=
    if hasAttr pd "POSITION" then
      let (b, g) := glGenBufferM gl1
      (g, u.vbos ++ [b])
    else (gl1, u.vbos)
  let (gl3, vbos3) :=
    if hasAttr pd "NORMAL" then
      let (b, g) := glGenBufferM gl2
      (g, vbos2 ++ [b])
    else (gl2, vbos2)
  let (gl4, vbos4) :=
    if hasAttr pd "TEXCOORD_0" then
      let (b, g) := glGenBufferM gl3
      (g, vbos3 ++ [b])
    else (gl3, vbos3)
  let (gl5, vbos5) :=
    if pd.indices.isSome then
      let (b, g) := glGenBufferM gl4
      (g, vbos4 ++ [b])
    else (gl4, vbos4)
  let vaos1 := u.vaos ++ [vao]
  let (gl6, texids1) :=
    match pd.material with
    | none => (gl5, u.texture_ids)
    | some m =>
      match textures.get? m with
      | none => (gl5, u.texture_ids)
      | some td =>
        if td.image.isSome then
          let (t, g) := glGenTextureM gl5
          (g, u.texture_ids ++ [t])
        else (gl5, u.texture_ids)
  { gl := gl6, vaos := vaos1, vbos := vbos5, texture_ids := texids1 }

/-- The primitive loop of one mesh in `_setup_opengl_buffers`. -/
def uploadPrims (textures : List TextureData) (u : UploadState) :
    List PrimitiveData → UploadState
  | [] => u
  | pd :: rest => uploadPrims textures (uploadPrimitive textures pd u) rest

/-- `GLBLoader._setup_opengl_buffers` (lines 199-288). -/
def setupOpenglBuffers (textures : List TextureData) (u : UploadState) :
    List MeshData → UploadState
  | [] => u
  | md :: rest => setupOpenglBuffers textures (uploadPrims textures u md.primitives) rest

/-- Total primitive count of the assembled meshes (`Σ P`). -/
def totalPrims (mds : List MeshData) : Nat :=
  (mds.map (fun md => md.primitives.length)).sum

/-- The loader instance (`self` of `GLBLoader`). -/
structure LoaderState where
  gltf : Option GLTF
  meshes : List MeshData
  textures : List TextureData
  materials : List MaterialData
  vaos : List Nat
  vbos : List Nat
  texture_ids : List Nat
  deriving DecidableEq, Repr

/-- A freshly constructed `GLBLoader`. -/
def initLoader : LoaderState :=
  { gltf := none, meshes := [], textures := [], materials := [],
    vaos := [], vbos := [], texture_ids := [] }

/-- `GLBLoader._clear_previous_data` (lines 34-40): resets the seven
sequences to empty.  Note it issues NO `glDelete*` call. -/
def clearPreviousData (s : LoaderState) : LoaderState :=
  { s with meshes := [], textures := [], materials := [],
           vaos := [], vbos := [], texture_ids := [] }

/-- `GLBLoader.load` (lines 20-32): parse, then clear previous data, then
textures → materials → meshes → GPU upload.  `parsed` is the outcome of
`GLTF2().load(file_path)`; when it raises, nothing has been assigned and
the loader state is untouched.  An uncaught exception further down
re-raises (the bare `raise` at line 32) with the partial mutations kept. -/
def loadModel (env : DecodeEnv) (parsed : Except PyError GLTF) (s : LoaderState)
    (gl : GLState) : PyResult (LoaderState × GLState) :=
  match parsed with
  | .error e => .err e (s, gl)
  | .ok g =>
    let s1 := clearPreviousData { s with gltf := some g }
    match loadTextures env g with
    | .err e partial1 => .err e ({ s1 with textures := partial1 }, gl)
    | .ok tex =>
      let s2 := { s1 with textures := tex }
      let s3 := { s2 with materials := loadMaterials g }
      match loadMeshes g with
      | .err e partial2 => .err e ({ s3 with meshes := partial2 }, gl)
      | .ok mds =>
        let s4 := { s3 with meshes := mds }
        let u := setupOpenglBuffers s4.textures
          { gl := gl, vaos := s4.vaos, vbos := s4.vbos, texture_ids := s4.texture_ids }
          s4.meshes
        .ok ({ s4 with vaos := u.vaos, vbos := u.vbos, texture_ids := u.texture_ids }, u.gl)

/-- `GLBLoader.cleanup` (lines 352-358): issues one delete call per
non-empty handle list.  Note it does NOT clear the lists afterwards. -/
def cleanupModel (s : LoaderState) (gl : GLState) : LoaderState × GLState :=
  let gl1 := if s.vaos.isEmpty then gl else glDeleteVertexArraysM s.vaos gl
  let gl2 := if s.vbos.isEmpty then gl1 else glDeleteBuffersM s.vbos gl1
  let gl3 := if s.texture_ids.isEmpty then gl2 else glDeleteTexturesM s.texture_ids gl2
  (s, gl3)

/-- The draw call a primitive ends in. -/
inductive DrawCall where
  | elements : Nat → DrawCall
  | arrays : Nat → DrawCall
  deriving DecidableEq, Repr

/-- What `render` does for one primitive: the vertex array it binds, the
material index whose uniforms it sets (if any), the texture handle it
binds to unit 0 (if any), and the draw call it issues. -/
structure RenderRecord where
  vao : Nat
  uniformsFrom : Option Nat
  boundTexture : Option Nat
  draw : DrawCall
  deriving DecidableEq, Repr

/-- One primitive iteration of `render` (lines 305-350). `vaoIndex` is
`i * len(mesh['primitives']) + j`; when it is out of range of
`self.vaos` the code does `continue` (→ `.ok none`).  The texture bind
indexes `self.texture_ids` by the MATERIAL index (line 333).  A
non-indexed draw reads `primitive['attributes']['POSITION']` directly
(line 347) — `KeyError` when absent. -/
def renderPrimitive (ls : LoaderState) (vaoIndex : Nat) (pd : PrimitiveData) :
    Except PyError (Option RenderRecord) :=
  match ls.vaos.get? vaoIndex with
  | none => .ok none
  | some vao =>
    let uniforms : Option Nat :=
      match pd.material with
      | some m => if m < ls.materials.length then some m else none
      | none => none
    let boundTex : Option Nat :=
      match pd.material with
      | some m =>
        match ls.texture_ids.get? m, ls.textures.get? m with
        | some h, some td => if td.image.isSome then some h else none
        | _, _ => none
      | none => none
    match pd.indices with
    | some idxArr =>
        .ok (some { vao := vao, uniformsFrom := uniforms, boundTexture := boundTex,
                    draw := .elements idxArr.len })
    | none =>
      match pd.attributes.lookup "POSITION" with
      | some arr =>
          .ok (some { vao := vao, uniformsFrom := uniforms, boundTexture := boundTex,
                      draw := .arrays arr.len })
      | none => .error .keyError

/-- The inner primitive loop of `render` for mesh number `i`, starting at
primitive number `j`; `primCount` is `len(mesh['primitives'])`. -/
def renderPrims (ls : LoaderState) (i primCount : Nat) :
    Nat → List PrimitiveData → Except PyError (List RenderRecord)
  | _, [] => .ok []
  | j, pd :: rest => do
    let r ← renderPrimitive ls (i * primCount + j) pd
    let tail ← renderPrims ls i primCount (j + 1) rest
    match r with
    | none => .ok tail
    | some rr => .ok (rr :: tail)

/-- The mesh loop of `render`. -/
def renderMeshes (ls : LoaderState) : Nat → List MeshData → Except PyError (List RenderRecord)
  | _, [] => .ok []
  | i, md :: rest => do
    let rs ← renderPrims ls i md.primitives.length 0 md.primitives
    let rest1 ← renderMeshes ls (i + 1) rest
    .ok (rs ++ rest1)

/-- `GLBLoader.render` (lines 303-350) as the list of per-primitive
render records it produces (or the uncaught exception it raises). -/
def renderModel (ls : LoaderState) : Except PyError (List RenderRecord) :=
  renderMeshes ls 0 ls.meshes

lemma pySlice_length_exact (data : List α) (start n : Nat) (h : start + n ≤ data.length) :
    (pySlice data start (start + n)).length = n := by
  rw [pySlice_length]; omega

/-- Characterization of `decodeAttribute` when the clipped slice length
is divisible by the item size: the decode succeeds, viewing exactly the
clipped bytes, reshaped iff the element count matches. -/
lemma decodeAttribute_of_mod (acc : Accessor) (bv : BufferView) (data : List Nat)
    (hmod : (pySlice data (attrWindowStart acc bv)
        (attrWindowStart acc bv + attrTotalBytes acc)).length %
        (getNumpyDtype acc.componentType).itemsize = 0) :
    decodeAttribute acc bv data =
      some { dtype := getNumpyDtype acc.componentType,
             bytes := pySlice data (attrWindowStart acc bv)
               (attrWindowStart acc bv + attrTotalBytes acc),
             shape2d :=
               if (pySlice data (attrWindowStart acc bv)
                     (attrWindowStart acc bv + attrTotalBytes acc)).length /
                   (getNumpyDtype acc.componentType).itemsize =
                   acc.count * componentCountOf acc.accType
               then some (acc.count, componentCountOf acc.accType) else none } := by
  simp only [attrWindowStart, attrTotalBytes] at hmod ⊢
  simp only [decodeAttribute, npFrombuffer, NpArray.size]
  rw [if_pos hmod]
  by_cases hdiv : (pySlice data (bv.byteOffset.getD 0 + acc.byteOffset.getD 0)
      (bv.byteOffset.getD 0 + acc.byteOffset.getD 0 +
        acc.count * componentCountOf acc.accType *
          (getNumpyDtype acc.componentType).itemsize)).length /
      (getNumpyDtype acc.componentType).itemsize =
      acc.count * componentCountOf acc.accType
  · simp only [hdiv, if_true]
  · simp only [hdiv, if_false]

/-- `decodeAttribute` is abandoned (returns `none`) exactly when the
clipped slice length is not divisible by the item size. -/
lemma decodeAttribute_eq_none_iff (acc : Accessor) (bv : BufferView) (data : List Nat) :
    decodeAttribute acc bv data = none ↔
      (pySlice data (attrWindowStart acc bv)
        (attrWindowStart acc bv + attrTotalBytes acc)).length %
        (getNumpyDtype acc.componentType).itemsize ≠ 0 := by
  simp only [attrWindowStart, attrTotalBytes]
  simp only [decodeAttribute, npFrombuffer, NpArray.size]
  by_cases hmod : (pySlice data (bv.byteOffset.getD 0 + acc.byteOffset.getD 0)
      (bv.byteOffset.getD 0 + acc.byteOffset.getD 0 +
        acc.count * componentCountOf acc.accType *
          (getNumpyDtype acc.componentType).itemsize)).length %
      (getNumpyDtype acc.componentType).itemsize = 0
  · rw [if_pos hmod]
    simp only [hmod]
    split <;> simp
  · rw [if_neg hmod]
    simp [hmod]

/-- C1: For every accessor whose byte window fits inside the decoded
buffer, the attribute array produced by mesh loading is decoded, has
shape `(count, componentsPerElement(shape))` — its element count equals
`count * componentCount` — and the bytes read from the buffer never
exceed the buffer's length. -/
theorem C1_valid_accessor_shape (acc : Accessor) (bv : BufferView) (data : List Nat)
    (h : attrWindowStart acc bv + attrTotalBytes acc ≤ data.length) :
    ∃ arr, decodeAttribute acc bv data = some arr ∧
      arr.shape2d = some (acc.count, componentCountOf acc.accType) ∧
      arr.size = acc.count * componentCountOf acc.accType ∧
      arr.bytes.length = attrTotalBytes acc ∧
      arr.bytes.length ≤ data.length := by
  have hpos := NumpyDtype.itemsize_pos (getNumpyDtype acc.componentType)
  have hlen : (pySlice data (attrWindowStart acc bv)
      (attrWindowStart acc bv + attrTotalBytes acc)).length = attrTotalBytes acc :=
    pySlice_length_exact data _ _ h
  have hmod : attrTotalBytes acc % (getNumpyDtype acc.componentType).itemsize = 0 := by
    unfold attrTotalBytes
    exact Nat.mul_mod_left _ _
  have hdiv : attrTotalBytes acc / (getNumpyDtype acc.componentType).itemsize =
      acc.count * componentCountOf acc.accType := by
    unfold attrTotalBytes
    exact Nat.mul_div_cancel _ hpos
  rw [decodeAttribute_of_mod acc bv data (by rw [hlen]; exact hmod)]
  refine ⟨_, rfl, ?_, ?_, ?_, ?_⟩
  · simp only [hlen, hdiv, if_true]
  · simp only [NpArray.size, hlen, hdiv]
  · exact hlen
  · rw [hlen]; omega

/-- Witness for C1 at a concrete accessor: a VEC3 float accessor with
`count = 1` at byte offset 2 over a 14-byte buffer (window 2..14 fits). -/
theorem C1_witness :
    attrWindowStart ⟨0, some 2, 5126, "VEC3", 1⟩ ⟨0, none, 12⟩ +
      attrTotalBytes ⟨0, some 2, 5126, "VEC3", 1⟩ ≤
      (List.replicate 14 0).length ∧
    ∃ arr, decodeAttribute ⟨0, some 2, 5126, "VEC3", 1⟩ ⟨0, none, 12⟩
        (List.replicate 14 0) = some arr ∧
      arr.shape2d = some (1, componentCountOf "VEC3") ∧
      arr.size = 1 * componentCountOf "VEC3" ∧
      arr.bytes.length = attrTotalBytes ⟨0, some 2, 5126, "VEC3", 1⟩ ∧
      arr.bytes.length ≤ (List.replicate 14 0).length :=
  ⟨by decide, C1_valid_accessor_shape ⟨0, some 2, 5126, "VEC3", 1⟩ ⟨0, none, 12⟩
      (List.replicate 14 0) (by decide)⟩

deriving instance DecidableEq for Except

lemma componentCountOf_pos (s : String) : 0 < componentCountOf s := by
  unfold componentCountOf
  repeat' split
  all_goals decide

/-- C2 counterexample: a SCALAR uint8 accessor with `count = 4` over a
2-byte buffer.  Its byte window (4 bytes) exceeds the buffer, yet the
decode is NOT abandoned: the truncated 1-D array `[7, 7]` (2 elements
instead of 4, never reshaped) is stored as the POSITION attribute of the
assembled primitive, contradicting the claim that the attribute is
omitted. -/
theorem C2_counterexample :
    ([7, 7] : List Nat).length <
      attrWindowStart ⟨0, none, 5121, "SCALAR", 4⟩ ⟨0, none, 2⟩ +
        attrTotalBytes ⟨0, none, 5121, "SCALAR", 4⟩ ∧
    loadPrimitive
        { buffers := [[7, 7]], bufferViews := [⟨0, none, 2⟩],
          accessors := [⟨0, none, 5121, "SCALAR", 4⟩], images := [], textures := [],
          materials := [], meshes := [] }
        ⟨[("POSITION", 0)], none, none⟩ =
      .ok (some { attributes := [("POSITION", ⟨.uint8, [7, 7], none⟩)],
                  indices := none, material := none }) := by decide

/-- C2 amended: when an accessor's byte window exceeds the buffer, the
slice is clipped; the decode is abandoned (the attribute omitted, the
loop continuing) exactly when the clipped byte count is not a multiple of
the component size — otherwise a truncated, never-reshaped 1-D array is
stored; and in the omission cases loading continues without aborting
(an omitted attribute skips just that attribute, a failed index decode
drops just that primitive). -/
theorem C2_amended_truncation (acc : Accessor) (bv : BufferView) (data : List Nat)
    (hover : data.length < attrWindowStart acc bv + attrTotalBytes acc)
    (hcnt : 0 < acc.count) :
    ((pySlice data (attrWindowStart acc bv)
        (attrWindowStart acc bv + attrTotalBytes acc)).length %
        (getNumpyDtype acc.componentType).itemsize ≠ 0 →
      decodeAttribute acc bv data = none) ∧
    ((pySlice data (attrWindowStart acc bv)
        (attrWindowStart acc bv + attrTotalBytes acc)).length %
        (getNumpyDtype acc.componentType).itemsize = 0 →
      decodeAttribute acc bv data =
        some { dtype := getNumpyDtype acc.componentType,
               bytes := pySlice data (attrWindowStart acc bv)
                 (attrWindowStart acc bv + attrTotalBytes acc),
               shape2d := none }) ∧
    (∀ (g : GLTF) (name : String) (idx : Nat) (rest : List (String × Nat)),
       decodeAttrFull g idx = .ok none →
       loadAttrs g ((name, idx) :: rest) = loadAttrs g rest) ∧
    (∀ (g : GLTF) (p : Primitive) (ps : List Primitive),
       loadPrimitive g p = .ok none →
       loadPrims g (p :: ps) = loadPrims g ps) := by
  have hccpos := componentCountOf_pos acc.accType
  have hitpos := NumpyDtype.itemsize_pos (getNumpyDtype acc.componentType)
  have htotpos : 0 < attrTotalBytes acc := by
    unfold attrTotalBytes
    exact Nat.mul_pos (Nat.mul_pos hcnt hccpos) hitpos
  have hcliplen : (pySlice data (attrWindowStart acc bv)
      (attrWindowStart acc bv + attrTotalBytes acc)).length < attrTotalBytes acc := by
    rw [pySlice_length]; omega
  refine ⟨?_, ?_, ?_, ?_⟩
  · intro hmodne
    rw [decodeAttribute_eq_none_iff]
    exact hmodne
  · intro hmod
    rw [decodeAttribute_of_mod acc bv data hmod]
    have hne : (pySlice data (attrWindowStart acc bv)
        (attrWindowStart acc bv + attrTotalBytes acc)).length /
        (getNumpyDtype acc.componentType).itemsize ≠
        acc.count * componentCountOf acc.accType := by
      intro he
      have hd := Nat.dvd_of_mod_eq_zero hmod
      have hcancel := Nat.div_mul_cancel hd
      rw [he] at hcancel
      have : attrTotalBytes acc = (pySlice data (attrWindowStart acc bv)
          (attrWindowStart acc bv + attrTotalBytes acc)).length := by
        rw [← hcancel]; unfold attrTotalBytes; ring
      omega
    simp only [hne, if_false]
  · intro g name idx rest h
    simp only [loadAttrs, h, bind, Except.bind]
    cases loadAttrs g rest <;> rfl
  · intro g p ps h
    simp only [loadPrims, h, bind, Except.bind]
    cases loadPrims g ps <;> rfl

/-- Witness for C2's amended theorem: the counterexample accessor, whose
clipped 2-byte slice is a multiple of the 1-byte item size, so the
truncated array is stored. -/
theorem C2_witness :
    (([7, 7] : List Nat).length <
      attrWindowStart ⟨0, none, 5121, "SCALAR", 4⟩ ⟨0, none, 2⟩ +
        attrTotalBytes ⟨0, none, 5121, "SCALAR", 4⟩ ∧ 0 < (4 : Nat)) ∧
    ((pySlice [7, 7] (attrWindowStart ⟨0, none, 5121, "SCALAR", 4⟩ ⟨0, none, 2⟩)
        (attrWindowStart ⟨0, none, 5121, "SCALAR", 4⟩ ⟨0, none, 2⟩ +
          attrTotalBytes ⟨0, none, 5121, "SCALAR", 4⟩)).length %
        (getNumpyDtype 5121).itemsize = 0 →
      decodeAttribute ⟨0, none, 5121, "SCALAR", 4⟩ ⟨0, none, 2⟩ [7, 7] =
        some { dtype := getNumpyDtype 5121,
               bytes := pySlice [7, 7]
                 (attrWindowStart ⟨0, none, 5121, "SCALAR", 4⟩ ⟨0, none, 2⟩)
                 (attrWindowStart ⟨0, none, 5121, "SCALAR", 4⟩ ⟨0, none, 2⟩ +
                   attrTotalBytes ⟨0, none, 5121, "SCALAR", 4⟩),
               shape2d := none }) :=
  ⟨⟨by decide, by decide⟩,
    (C2_amended_truncation ⟨0, none, 5121, "SCALAR", 4⟩ ⟨0, none, 2⟩ [7, 7]
      (by decide) (by decide)).2.1⟩

lemma decodeAttribute_dtype (acc : Accessor) (bv : BufferView) (data : List Nat) (arr : NpArray)
    (h : decodeAttribute acc bv data = some arr) :
    arr.dtype = getNumpyDtype acc.componentType := by
  by_cases hmod : (pySlice data (attrWindowStart acc bv)
      (attrWindowStart acc bv + attrTotalBytes acc)).length %
      (getNumpyDtype acc.componentType).itemsize = 0
  · rw [decodeAttribute_of_mod acc bv data hmod] at h
    cases h
    rfl
  · rw [(decodeAttribute_eq_none_iff acc bv data).2 hmod] at h
    cases h

/-- C7: component-type code 5126 and any code outside the fixed map
produce the 32-bit float dtype; decoding with an unrecognized code yields
an array identical (hence of identical shape) to the one code 5126 would
yield for the same accessor, and any successful decode under such a code
is a float32 array. -/
theorem C7_unknown_code_float32 (c : Nat)
    (h : c ≠ 5120 ∧ c ≠ 5121 ∧ c ≠ 5122 ∧ c ≠ 5123 ∧ c ≠ 5125) :
    getNumpyDtype c = .float32 ∧
    (∀ (bvi : Nat) (off : Option Nat) (ty : String) (cnt : Nat) (bv : BufferView)
       (data : List Nat),
       decodeAttribute ⟨bvi, off, c, ty, cnt⟩ bv data =
         decodeAttribute ⟨bvi, off, 5126, ty, cnt⟩ bv data) ∧
    (∀ (acc : Accessor) (bv : BufferView) (data : List Nat) (arr : NpArray),
       acc.componentType = c → decodeAttribute acc bv data = some arr →
       arr.dtype = .float32) := by
  obtain ⟨h1, h2, h3, h4, h5⟩ := h
  have hdt : getNumpyDtype c = .float32 := by
    unfold getNumpyDtype
    rw [if_neg h1, if_neg h2, if_neg h3, if_neg h4, if_neg h5]
    split <;> rfl
  have h26 : getNumpyDtype 5126 = .float32 := rfl
  refine ⟨hdt, ?_, ?_⟩
  · intro bvi off ty cnt bv data
    simp only [decodeAttribute, hdt, h26]
  · intro acc bv data arr hc hdec
    rw [decodeAttribute_dtype acc bv data arr hdec, hc, hdt]

/-- Witness for C7 at the concrete unrecognized code 9999. -/
theorem C7_witness :
    ((9999 : Nat) ≠ 5120 ∧ (9999 : Nat) ≠ 5121 ∧ (9999 : Nat) ≠ 5122 ∧
      (9999 : Nat) ≠ 5123 ∧ (9999 : Nat) ≠ 5125) ∧
    (getNumpyDtype 9999 = .float32 ∧
      (∀ (bvi : Nat) (off : Option Nat) (ty : String) (cnt : Nat) (bv : BufferView)
         (data : List Nat),
         decodeAttribute ⟨bvi, off, 9999, ty, cnt⟩ bv data =
           decodeAttribute ⟨bvi, off, 5126, ty, cnt⟩ bv data) ∧
      (∀ (acc : Accessor) (bv : BufferView) (data : List Nat) (arr : NpArray),
         acc.componentType = 9999 → decodeAttribute acc bv data = some arr →
         arr.dtype = .float32)) :=
  ⟨by decide, C7_unknown_code_float32 9999 (by decide)⟩

/-- C10: when parsing the container raises, `load` re-raises before any
mutation: the gltf, meshes, textures, materials, vaos, vbos and
texture_ids fields hold exactly what they held before the call (the
clearing at line 26 runs only after a successful parse). -/
theorem C10_failed_parse_preserves_state (env : DecodeEnv) (e : PyError)
    (s : LoaderState) (gl : GLState) :
    loadModel env (.error e) s gl = .err e (s, gl) := rfl

/-- C8 counterexample: a primitive with a NORMAL attribute but no
POSITION and no index list is assembled and has a vertex array, yet
`render` does not degrade — it raises `KeyError` at line 347 when sizing
the non-indexed draw, instead of sizing from the attribute that is
present. -/
theorem C8_counterexample :
    renderModel
        { gltf := none,
          meshes := [{ name := "mesh_0", primitives :=
            [{ attributes := [("NORMAL", ⟨.float32, [0, 0, 0, 0], none⟩)],
               indices := none, material := none }] }],
          textures := [], materials := [], vaos := [1], vbos := [],
          texture_ids := [] } =
      .error .keyError := by decide

/-- C8 amended: a primitive with no POSITION attribute is still
assembled into its mesh (assembly never rejects on attributes); at
render time a non-indexed draw is sized from the POSITION attribute
specifically — when POSITION is present the draw uses its length, and
when POSITION is absent the render raises `KeyError` rather than
degrading. -/
theorem C8_amended_position_only_sizing :
    (∀ (g : GLTF) (p : Primitive) (attrs : List (String × NpArray)),
       p.indices = none → loadAttrs g p.attributes = .ok attrs →
       loadPrimitive g p = .ok (some { attributes := attrs, indices := none,
                                       material := p.material })) ∧
    (∀ (ls : LoaderState) (vi : Nat) (pd : PrimitiveData) (vao : Nat) (arr : NpArray),
       ls.vaos.get? vi = some vao → pd.indices = none →
       pd.attributes.lookup "POSITION" = some arr →
       ∃ rr, renderPrimitive ls vi pd = .ok (some rr) ∧ rr.draw = .arrays arr.len) ∧
    (∀ (ls : LoaderState) (vi : Nat) (pd : PrimitiveData) (vao : Nat),
       ls.vaos.get? vi = some vao → pd.indices = none →
       pd.attributes.lookup "POSITION" = none →
       renderPrimitive ls vi pd = .error .keyError) := by
  refine ⟨?_, ?_, ?_⟩
  · intro g p attrs hind hattrs
    simp only [loadPrimitive, hattrs, bind, Except.bind, hind]
  · intro ls vi pd vao arr hvao hind hpos
    simp only [renderPrimitive, hvao, hind, hpos]
    exact ⟨_, rfl, rfl⟩
  · intro ls vi pd vao hvao hind hpos
    simp only [renderPrimitive, hvao, hind, hpos]

/-- Witness for C8's amended theorem: a primitive carrying only NORMAL is
assembled, and rendering it raises `KeyError`. -/
theorem C8_witness :
    loadPrimitive
        { buffers := [], bufferViews := [], accessors := [], images := [],
          textures := [], materials := [], meshes := [] }
        { attributes := [], indices := none, material := none } =
      .ok (some { attributes := [], indices := none, material := none }) ∧
    renderPrimitive
        { gltf := none, meshes := [], textures := [], materials := [],
          vaos := [1], vbos := [], texture_ids := [] } 0
        { attributes := [("NORMAL", ⟨.float32, [0, 0, 0, 0], none⟩)],
          indices := none, material := none } =
      .error .keyError :=
  ⟨C8_amended_position_only_sizing.1
      { buffers := [], bufferViews := [], accessors := [], images := [],
        textures := [], materials := [], meshes := [] }
      { attributes := [], indices := none, material := none } [] rfl rfl,
    C8_amended_position_only_sizing.2.2
      { gltf := none, meshes := [], textures := [], materials := [],
        vaos := [1], vbos := [], texture_ids := [] } 0
      { attributes := [("NORMAL", ⟨.float32, [0, 0, 0, 0], none⟩)],
        indices := none, material := none } 1 rfl rfl (by decide)⟩

lemma uploadPrimitive_vaos_len (tex : List TextureData) (pd : PrimitiveData) (u : UploadState) :
    (uploadPrimitive tex pd u).vaos.length = u.vaos.length + 1 := by
  unfold uploadPrimitive
  simp only [glGenVertexArrayM, glGenBufferM, glGenTextureM]
  simp

lemma uploadPrimitive_texids_le (tex : List TextureData) (pd : PrimitiveData) (u : UploadState) :
    (uploadPrimitive tex pd u).texture_ids.length ≤ u.texture_ids.length + 1 := by
  unfold uploadPrimitive
  simp only [glGenVertexArrayM, glGenBufferM, glGenTextureM]
  repeat' split
  all_goals simp

lemma uploadPrims_vaos_len (tex : List TextureData) (pds : List PrimitiveData)
    (u : UploadState) :
    (uploadPrims tex u pds).vaos.length = u.vaos.length + pds.length := by
  induction pds generalizing u with
  | nil => rfl
  | cons pd rest ih =>
      simp only [uploadPrims]
      rw [ih (uploadPrimitive tex pd u), uploadPrimitive_vaos_len]
      simp only [List.length_cons]
      omega

lemma uploadPrims_texids_le (tex : List TextureData) (pds : List PrimitiveData)
    (u : UploadState) :
    (uploadPrims tex u pds).texture_ids.length ≤ u.texture_ids.length + pds.length := by
  induction pds generalizing u with
  | nil => simp [uploadPrims]
  | cons pd rest ih =>
      simp only [uploadPrims]
      have h1 := uploadPrimitive_texids_le tex pd u
      have h2 := ih (uploadPrimitive tex pd u)
      simp only [List.length_cons]
      omega

lemma setupOpenglBuffers_vaos_len (tex : List TextureData) (mds : List MeshData)
    (u : UploadState) :
    (setupOpenglBuffers tex u mds).vaos.length = u.vaos.length + totalPrims mds := by
  induction mds generalizing u with
  | nil => simp [setupOpenglBuffers, totalPrims]
  | cons md rest ih =>
      simp only [setupOpenglBuffers]
      rw [ih (uploadPrims tex u md.primitives), uploadPrims_vaos_len]
      simp only [totalPrims, List.map_cons, List.sum_cons]
      omega

lemma setupOpenglBuffers_texids_le (tex : List TextureData) (mds : List MeshData)
    (u : UploadState) :
    (setupOpenglBuffers tex u mds).texture_ids.length ≤
      u.texture_ids.length + totalPrims mds := by
  induction mds generalizing u with
  | nil => simp [setupOpenglBuffers, totalPrims]
  | cons md rest ih =>
      simp only [setupOpenglBuffers]
      have h1 := uploadPrims_texids_le tex md.primitives u
      have h2 := ih (uploadPrims tex u md.primitives)
      simp only [totalPrims, List.map_cons, List.sum_cons] at *
      omega

/-- C9: after the GPU upload of assembled meshes, starting from cleared
handle lists, the vertex-array handle count equals the total primitive
count across all meshes, and the recorded texture-handle count is at most
that same figure. -/
theorem C9_upload_handle_counts (textures : List TextureData) (mds : List MeshData)
    (u : UploadState) (hv : u.vaos = []) (ht : u.texture_ids = []) :
    (setupOpenglBuffers textures u mds).vaos.length = totalPrims mds ∧
    (setupOpenglBuffers textures u mds).texture_ids.length ≤ totalPrims mds := by
  have h1 := setupOpenglBuffers_vaos_len textures mds u
  have h2 := setupOpenglBuffers_texids_le textures mds u
  rw [hv] at h1
  rw [ht] at h2
  refine ⟨?_, ?_⟩
  · simpa using h1
  · simpa using h2

/-- Concrete mesh list for the C9 witness: two meshes holding one and two
primitives. -/
def C9meshes : List MeshData :=
  [{ name := "mesh_0",
     primitives := [{ attributes := [], indices := none, material := none }] },
   { name := "mesh_1",
     primitives := [{ attributes := [], indices := none, material := none },
                    { attributes := [], indices := none, material := none }] }]

/-- Concrete empty upload state for the C9 witness. -/
def C9upload : UploadState := { gl := initGL, vaos := [], vbos := [], texture_ids := [] }

/-- Witness for C9: two meshes with one and two primitives give three
vertex arrays and at most three texture handles. -/
theorem C9_witness :
    (C9upload.vaos = [] ∧ C9upload.texture_ids = []) ∧
    ((setupOpenglBuffers [] C9upload C9meshes).vaos.length = totalPrims C9meshes ∧
     (setupOpenglBuffers [] C9upload C9meshes).texture_ids.length ≤ totalPrims C9meshes) :=
  ⟨⟨rfl, rfl⟩, C9_upload_handle_counts [] C9meshes C9upload rfl rfl⟩

/-- The loader/GL state a `load` call leaves behind, whether it returned
or raised. -/
def afterResult (r : PyResult (LoaderState × GLState)) : LoaderState × GLState :=
  match r with
  | .ok p => p
  | .err _ p => p

/-- A decode environment in which every PIL call fails (no texture in the
scenario needs one). -/
def envNone : DecodeEnv :=
  { openExternal := fun _ => none, openBytes := fun _ => none }

/-- One-mesh, one-primitive container for the C3 re-load scenario. -/
def C3gltf : GLTF :=
  { buffers := [], bufferViews := [], accessors := [], images := [], textures := [],
    materials := [],
    meshes := [{ name := none,
                 primitives := [{ attributes := [], indices := none, material := none }] }] }

/-- Loader and GL state after one `load` of `C3gltf` from scratch. -/
def C3afterOne : LoaderState × GLState :=
  afterResult (loadModel envNone (.ok C3gltf) initLoader initGL)

/-- Loader and GL state after re-loading `C3gltf` on the same instance. -/
def C3afterTwo : LoaderState × GLState :=
  afterResult (loadModel envNone (.ok C3gltf) C3afterOne.1 C3afterOne.2)

/-- C3 (code bug): re-loading destroys NO previously held GPU handle —
`_clear_previous_data` only empties the tracking lists.  After one load
one vertex-array handle is live; after re-loading the same container two
are live (the first leaked), no `glDelete*` call was ever issued, and the
tracked handle count is nevertheless the same after both loads. -/
theorem C3_reload_leaks_handles :
    C3afterOne.2.liveVaos.length = 1 ∧
    C3afterTwo.2.liveVaos.length = 2 ∧
    C3afterTwo.2.deleteLog = [] ∧
    C3afterTwo.1.vaos.length = C3afterOne.1.vaos.length := by decide

/-- A loader holding one handle of each kind, as after a small load. -/
def C4loader : LoaderState :=
  { gltf := none, meshes := [], textures := [], materials := [],
    vaos := [1], vbos := [2], texture_ids := [3] }

/-- C4 (code bug): `cleanup` never clears the handle sequences, so the
first call leaves `vaos`, `vbos`, `texture_ids` intact and a second call
re-issues the very same three delete calls (a double release), instead
of releasing nothing. -/
theorem C4_double_cleanup_rereleases :
    (cleanupModel C4loader initGL).1.vaos = [1] ∧
    (cleanupModel C4loader initGL).1.vbos = [2] ∧
    (cleanupModel C4loader initGL).1.texture_ids = [3] ∧
    (cleanupModel (cleanupModel C4loader initGL).1
        (cleanupModel C4loader initGL).2).2.deleteLog =
      [[1], [2], [3], [1], [2], [3]] := by decide

/-- A decode environment where every external image file decodes to a
4×4 RGBA bitmap. -/
def envImg : DecodeEnv :=
  { openExternal := fun _ => some ⟨4, 4⟩, openBytes := fun _ => none }

/-- Container for the C5 scenario: two textures with decodable external
images, one mesh with two primitives whose material indices are swapped
(primitive 0 → texture 1, primitive 1 → texture 0). -/
def C5gltf : GLTF :=
  { buffers := [List.replicate 12 0],
    bufferViews := [{ buffer := 0, byteOffset := none, byteLength := 12 }],
    accessors := [{ bufferView := 0, byteOffset := none, componentType := 5126,
                    accType := "VEC3", count := 1 }],
    images := [{ uri := some "a.png", bufferView := none, mimeType := none,
                 width := none, height := none },
               { uri := some "b.png", bufferView := none, mimeType := none,
                 width := none, height := none }],
    textures := [{ source := some 0, name := none }, { source := some 1, name := none }],
    materials := [],
    meshes := [{ name := none,
                 primitives := [{ attributes := [("POSITION", 0)], indices := none,
                                  material := some 1 },
                                { attributes := [("POSITION", 0)], indices := none,
                                  material := some 0 }] }] }

/-- Loader and GL state after loading `C5gltf`. -/
def C5loaded : LoaderState × GLState :=
  afterResult (loadModel envImg (.ok C5gltf) initLoader initGL)

/-- C5 counterexample: uploading `C5gltf` records texture handle 3 while
processing primitive 0 (whose texture is `textures[1]`) and handle 6
while processing primitive 1 (whose texture is `textures[0]`), giving
`texture_ids = [3, 6]`.  `render` then binds `texture_ids[material]`:
handle 6 for primitive 0 and handle 3 for primitive 1 — each primitive is
drawn with the handle uploaded for the OTHER primitive's texture, so the
handle render binds is not the one uploaded for that primitive's
texture. -/
theorem C5_counterexample :
    C5loaded.1.texture_ids = [3, 6] ∧
    renderModel C5loaded.1 =
      .ok [{ vao := 1, uniformsFrom := none, boundTexture := some 6, draw := .arrays 1 },
           { vao := 4, uniformsFrom := none, boundTexture := some 3, draw := .arrays 1 }] := by
  decide

/-- Whether a primitive gets a texture handle during upload (the guard at
lines 243-245: material index in range of `self.textures` and that
texture has an image). -/
def texCondition (textures : List TextureData) (pd : PrimitiveData) : Bool :=
  match pd.material with
  | none => false
  | some m =>
    match textures.get? m with
    | none => false
    | some td => td.image.isSome

lemma uploadPrimitive_texids_len (tex : List TextureData) (pd : PrimitiveData)
    (u : UploadState) :
    (uploadPrimitive tex pd u).texture_ids.length =
      u.texture_ids.length + (if texCondition tex pd then 1 else 0) := by
  unfold uploadPrimitive texCondition
  simp only [glGenVertexArrayM, glGenBufferM, glGenTextureM]
  repeat' split
  all_goals simp_all [List.getElem?_eq_none]

lemma uploadPrims_texids_count (tex : List TextureData) (pds : List PrimitiveData)
    (u : UploadState) :
    (uploadPrims tex u pds).texture_ids.length =
      u.texture_ids.length + pds.countP (fun pd => texCondition tex pd) := by
  induction pds generalizing u with
  | nil => simp [uploadPrims]
  | cons pd rest ih =>
      simp only [uploadPrims]
      rw [ih (uploadPrimitive tex pd u), uploadPrimitive_texids_len]
      rw [List.countP_cons]
      omega

lemma setupOpenglBuffers_texids_count (tex : List TextureData) (mds : List MeshData)
    (u : UploadState) :
    (setupOpenglBuffers tex u mds).texture_ids.length =
      u.texture_ids.length +
        (mds.map (fun md => md.primitives.countP (fun pd => texCondition tex pd))).sum := by
  induction mds generalizing u with
  | nil => simp [setupOpenglBuffers]
  | cons md rest ih =>
      simp only [setupOpenglBuffers]
      rw [ih (uploadPrims tex u md.primitives), uploadPrims_texids_count]
      simp only [List.map_cons, List.sum_cons]
      omega

/-- C5 amended: during upload a texture handle is appended, in flattened
(mesh, primitive) order, exactly for each primitive whose material index
resolves — reinterpreted as a texture index — to a texture with a decoded
image (a compacted list, one entry per such primitive, not a list aligned
to flattened positions); at render, the handle bound for a primitive is
`texture_ids[material]` whenever the material index is in range of both
`texture_ids` and `textures` and that texture has an image — which need
not be the handle uploaded for that primitive's own texture. -/
theorem C5_amended_compacted_ids_and_material_index_bind :
    (∀ (textures : List TextureData) (mds : List MeshData) (u : UploadState),
       (setupOpenglBuffers textures u mds).texture_ids.length =
         u.texture_ids.length +
           (mds.map (fun md => md.primitives.countP
             (fun pd => texCondition textures pd))).sum) ∧
    (∀ (ls : LoaderState) (vi : Nat) (pd : PrimitiveData) (vao m h : Nat)
       (td : TextureData),
       ls.vaos.get? vi = some vao → pd.material = some m →
       ls.texture_ids.get? m = some h → ls.textures.get? m = some td →
       td.image.isSome = true →
       pd.indices.isSome ∨ (pd.attributes.lookup "POSITION").isSome →
       ∃ rr, renderPrimitive ls vi pd = .ok (some rr) ∧ rr.boundTexture = some h) := by
  refine ⟨setupOpenglBuffers_texids_count, ?_⟩
  intro ls vi pd vao m h td hvao hm htid htex himg hdraw
  cases hind : pd.indices with
  | some arr =>
      simp only [renderPrimitive, hvao, hm, htid, htex, himg, hind, if_true]
      exact ⟨_, rfl, rfl⟩
  | none =>
      rcases hdraw with hd | hd
      · rw [hind] at hd
        simp at hd
      · obtain ⟨arr, harr⟩ := Option.isSome_iff_exists.mp hd
        simp only [renderPrimitive, hvao, hm, htid, htex, himg, hind, harr, if_true]
        exact ⟨_, rfl, rfl⟩

/-- Witness for C5's amended theorem: a loader whose single primitive has
material index 0, with `texture_ids = [9]` and a textured `textures[0]`,
renders binding handle 9; and the compaction count evaluates on the C5
scenario's loaded state. -/
theorem C5_witness :
    ((setupOpenglBuffers C5loaded.1.textures
        { gl := initGL, vaos := [], vbos := [], texture_ids := [] }
        C5loaded.1.meshes).texture_ids.length =
      0 + (C5loaded.1.meshes.map (fun md => md.primitives.countP
             (fun pd => texCondition C5loaded.1.textures pd))).sum) ∧
    (∃ rr, renderPrimitive
        { gltf := none, meshes := [], textures := [⟨some 0, "t", some ⟨4, 4⟩, some false⟩],
          materials := [], vaos := [1], vbos := [], texture_ids := [9] } 0
        { attributes := [], indices := some ⟨.uint32, [0, 0, 0, 0], none⟩,
          material := some 0 } = .ok (some rr) ∧ rr.boundTexture = some 9) :=
  ⟨C5_amended_compacted_ids_and_material_index_bind.1 C5loaded.1.textures C5loaded.1.meshes
      { gl := initGL, vaos := [], vbos := [], texture_ids := [] },
    C5_amended_compacted_ids_and_material_index_bind.2
      { gltf := none, meshes := [], textures := [⟨some 0, "t", some ⟨4, 4⟩, some false⟩],
        materials := [], vaos := [1], vbos := [], texture_ids := [9] } 0
      { attributes := [], indices := some ⟨.uint32, [0, 0, 0, 0], none⟩,
        material := some 0 } 1 0 9 ⟨some 0, "t", some ⟨4, 4⟩, some false⟩
      rfl rfl rfl rfl rfl (Or.inl rfl)⟩

/-- Container for the C6 scenario: the first texture's image carries a
dangling bufferView reference (index 3, but there are no bufferViews);
a second, perfectly decodable texture follows it. -/
def C6gltf : GLTF :=
  { buffers := [], bufferViews := [], accessors := [],
    images := [{ uri := none, bufferView := some 3, mimeType := none,
                 width := none, height := none },
               { uri := some "ok.png", bufferView := none, mimeType := none,
                 width := none, height := none }],
    textures := [{ source := some 0, name := none }, { source := some 1, name := none }],
    materials := [], meshes := [] }

/-- C6 counterexample: the first image's dangling bufferView reference is
resolved OUTSIDE the `try` block (lines 70-71), so it raises an uncaught
IndexError: the whole `load` call aborts on a single image's failure —
the remaining (decodable) texture is never processed, instead of only the
broken texture being skipped. -/
theorem C6_counterexample :
    loadTextures envImg C6gltf = .err .indexError [] ∧
    loadModel envImg (.ok C6gltf) initLoader initGL =
      .err .indexError
        ({ gltf := some C6gltf, meshes := [], textures := [], materials := [],
           vaos := [], vbos := [], texture_ids := [] }, initGL) := by decide

/-- C6 amended: a texture whose image fails to decode inside the guarded
decode step — a missing/undecodable external file, or an embedded byte
range that fails to decode — is skipped alone (nothing appended for it)
and texture loading continues with the remaining textures; but a
dangling bufferView or buffer reference for an embedded image raises an
uncaught error that aborts the whole load. -/
theorem C6_amended_guarded_decode_skips :
    (∀ (env : DecodeEnv) (g : GLTF) (t : TexEntry) (s : Nat) (image : ImageEntry)
       (u : String),
       t.source = some s → g.images.get? s = some image → image.uri = some u → u ≠ "" →
       env.openExternal u = none → texOutcome env g t = .skip) ∧
    (∀ (env : DecodeEnv) (g : GLTF) (t : TexEntry) (s : Nat) (image : ImageEntry)
       (bvIdx : Nat) (bv : BufferView) (data : List Nat),
       t.source = some s → g.images.get? s = some image → image.uri = none →
       image.bufferView = some bvIdx → g.bufferViews.get? bvIdx = some bv →
       g.buffers.get? bv.buffer = some data →
       decodeEmbedded env image
         (pySlice data (bv.byteOffset.getD 0) (bv.byteOffset.getD 0 + bv.byteLength)) =
         none →
       texOutcome env g t = .skip) ∧
    (∀ (env : DecodeEnv) (g : GLTF) (t : TexEntry) (ts : List TexEntry)
       (done : List TextureData),
       texOutcome env g t = .skip →
       loadTexturesAux env g done (t :: ts) = loadTexturesAux env g done ts) := by
  refine ⟨?_, ?_, ?_⟩
  · intro env g t s image u hs himg huri hne hopen
    simp only [texOutcome, hs, himg, huri, if_neg hne, hopen]
  · intro env g t s image bvIdx bv data hs himg huri hbv hbvget hbuf hdec
    simp only [texOutcome, texEmbeddedBranch, hs, himg, huri, hbv, hbvget, hbuf, hdec]
  · intro env g t ts done h
    simp only [loadTexturesAux, h]

/-- Witness for C6's amended theorem: a texture whose external image file
fails to open is skipped and loading continues past it. -/
theorem C6_witness :
    texOutcome envNone
      { buffers := [], bufferViews := [], accessors := [],
        images := [{ uri := some "missing.png", bufferView := none, mimeType := none,
                     width := none, height := none }],
        textures := [{ source := some 0, name := none }], materials := [], meshes := [] }
      { source := some 0, name := none } = .skip ∧
    loadTexturesAux envNone
      { buffers := [], bufferViews := [], accessors := [],
        images := [{ uri := some "missing.png", bufferView := none, mimeType := none,
                     width := none, height := none }],
        textures := [{ source := some 0, name := none }], materials := [], meshes := [] }
      [] [{ source := some 0, name := none }] =
      loadTexturesAux envNone
        { buffers := [], bufferViews := [], accessors := [],
          images := [{ uri := some "missing.png", bufferView := none, mimeType := none,
                       width := none, height := none }],
          textures := [{ source := some 0, name := none }], materials := [], meshes := [] }
        [] [] :=
  ⟨C6_amended_guarded_decode_skips.1 envNone
      { buffers := [], bufferViews := [], accessors := [],
        images := [{ uri := some "missing.png", bufferView := none, mimeType := none,
                     width := none, height := none }],
        textures := [{ source := some 0, name := none }], materials := [], meshes := [] }
      { source := some 0, name := none } 0
      { uri := some "missing.png", bufferView := none, mimeType := none,
        width := none, height := none } "missing.png" rfl rfl rfl (by decide) rfl,
    C6_amended_guarded_decode_skips.2.2 envNone
      { buffers := [], bufferViews := [], accessors := [],
        images := [{ uri := some "missing.png", bufferView := none, mimeType := none,
                     width := none, height := none }],
        textures := [{ source := some 0, name := none }], materials := [], meshes := [] }
      { source := some 0, name := none } [] []
      (C6_amended_guarded_decode_skips.1 envNone
        { buffers := [], bufferViews := [], accessors := [],
          images := [{ uri := some "missing.png", bufferView := none, mimeType := none,
                       width := none, height := none }],
          textures := [{ source := some 0, name := none }], materials := [], meshes := [] }
        { source := some 0, name := none } 0
        { uri := some "missing.png", bufferView := none, mimeType := none,
          width := none, height := none } "missing.png" rfl rfl rfl (by decide) rfl)⟩
